import Mathlib

/-!
Verification development for the Tick time-tracking MCP server
(src/main.py). The Python source is shallowly embedded: the HTTP
transport is a parameter (a record of functions from requests to
Except-values), the unbounded pagination while-loop is given explicit
fuel, Python numbers are modelled as Rat, Python dicts that preserve
insertion order are modelled as association lists, and Python
try/except boundaries become explicit matches on Except results.
Every operation returns the structured response dictionary together
with the ordered list of HTTP requests it issued.
-/

namespace Tick

/-! ## Strings: Python str.lower() and substring containment (the in operator) -/

/-- ASCII lower-casing of one character, as Python str.lower() acts on
the ASCII names used by the Tick API. -/
def lowerChar (c : Char) : Char :=
  if 65 ≤ c.toNat ∧ c.toNat ≤ 90 then Char.ofNat (c.toNat + 32) else c

/-- Character list of the lower-cased string. -/
def lowerStr (s : String) : List Char := s.toList.map lowerChar

/-- Whether the first list is a leading block of the second. -/
def hasPre : List Char → List Char → Bool
  | [], _ => true
  | _ :: _, [] => false
  | c :: cs, d :: ds => (c == d) && hasPre cs ds

/-- Whether the first list occurs contiguously inside the second:
Python needle in hay on strings. -/
def hasSub (needle : List Char) : List Char → Bool
  | [] => needle.isEmpty
  | d :: ds => hasPre needle (d :: ds) || hasSub needle ds

/-- Case-insensitive containment test: models
needle.lower() in hay.lower() from src/main.py lines 65 and 243. -/
def containsCI (hay needle : String) : Bool :=
  hasSub (lowerStr needle) (lowerStr hay)

/-- Python str.strip() restricted to the space characters this code can
produce when joining first and last names (src/main.py line 616). -/
def trimStr (s : String) : String :=
  ⟨((s.toList.dropWhile (· == ' ')).reverse.dropWhile (· == ' ')).reverse⟩

/-! ## Calendar arithmetic (datetime, timedelta) -/

/-- A calendar date, as Python datetime.date (year, month, day). -/
structure Date where
  year : Nat
  month : Nat
  day : Nat
deriving DecidableEq, Repr

/-- Gregorian leap-year rule used by Python datetime. -/
def isLeap (y : Nat) : Bool := (y % 4 == 0 && y % 100 != 0) || y % 400 == 0

/-- Number of days in a month of a given year. -/
def daysInMonth (y m : Nat) : Nat :=
  if m = 2 then (if isLeap y then 29 else 28)
  else if m = 4 ∨ m = 6 ∨ m = 9 ∨ m = 11 then 30 else 31

/-- A structurally valid proleptic-Gregorian date (what datetime accepts). -/
def Date.Valid (dt : Date) : Prop :=
  1 ≤ dt.year ∧ 1 ≤ dt.month ∧ dt.month ≤ 12 ∧ 1 ≤ dt.day ∧ dt.day ≤ daysInMonth dt.year dt.month

instance (dt : Date) : Decidable dt.Valid := by unfold Date.Valid; infer_instance

/-- Day count of a date in the proleptic Gregorian calendar (the civil
day-number algorithm); used only to read off the weekday. -/
def civilDays (dt : Date) : Nat :=
  let y := if dt.month ≤ 2 then dt.year - 1 else dt.year
  let era := y / 400
  let yoe := y % 400
  let mp := if dt.month ≥ 3 then dt.month - 3 else dt.month + 9
  let doy := (153 * mp + 2) / 5 + (dt.day - 1)
  let doe := yoe * 365 + yoe / 4 - yoe / 100 + doy
  era * 146097 + doe

/-- Python datetime.weekday(): Monday is 0, Sunday is 6. -/
def weekday (dt : Date) : Nat := (civilDays dt + 2) % 7

/-- The previous calendar day. -/
def prevDay (dt : Date) : Date :=
  if 1 < dt.day then ⟨dt.year, dt.month, dt.day - 1⟩
  else if 1 < dt.month then ⟨dt.year, dt.month - 1, daysInMonth dt.year (dt.month - 1)⟩
  else ⟨dt.year - 1, 12, 31⟩

/-- The next calendar day. -/
def nextDay (dt : Date) : Date :=
  if dt.day < daysInMonth dt.year dt.month then ⟨dt.year, dt.month, dt.day + 1⟩
  else if dt.month < 12 then ⟨dt.year, dt.month + 1, 1⟩
  else ⟨dt.year + 1, 1, 1⟩

/-- date minus timedelta(days = n). -/
def subDays (dt : Date) : Nat → Date
  | 0 => dt
  | n + 1 => subDays (prevDay dt) n

/-- date plus timedelta(days = n). -/
def addDays (dt : Date) : Nat → Date
  | 0 => dt
  | n + 1 => addDays (nextDay dt) n

/-- Left-pad a numeral to two digits, as strftime %m / %d. -/
def pad2 (n : Nat) : String := if n < 10 then "0" ++ toString n else toString n

/-- Left-pad a numeral to four digits, as strftime %Y. -/
def pad4 (n : Nat) : String :=
  if n < 10 then "000" ++ toString n
  else if n < 100 then "00" ++ toString n
  else if n < 1000 then "0" ++ toString n
  else toString n

/-- strftime("%Y-%m-%d"). -/
def Date.fmt (dt : Date) : String := pad4 dt.year ++ "-" ++ pad2 dt.month ++ "-" ++ pad2 dt.day

/-- Numeric value of a decimal digit character. -/
def digitVal (c : Char) : Nat := c.toNat - 48

/-- Parse a non-empty all-digit character block. -/
def natOfDigits (l : List Char) : Option Nat :=
  if !l.isEmpty && l.all Char.isDigit then
    some (l.foldl (fun a c => 10 * a + digitVal c) 0) else none

/-- Model of datetime.strptime(s, "%Y-%m-%d") followed by datetime
range checking: three dash-separated digit blocks denoting a valid
date (src/main.py lines 162 to 164, 229, 413). -/
def parseDate (s : String) : Option Date :=
  match (s.toList.splitOn '-').map natOfDigits with
  | [some y, some m, some d] =>
    if 1 ≤ y ∧ y ≤ 9999 ∧ 1 ≤ m ∧ m ≤ 12 ∧ 1 ≤ d ∧ d ≤ daysInMonth y m
    then some ⟨y, m, d⟩ else none
  | _ => none

/-! ## Data model: records fetched from the remote service -/

/-- The client object nested inside a project view of a time entry. -/
structure ClientRef where
  id : Option Nat
  name : Option String
deriving DecidableEq, Repr

/-- The project view nested inside a time entry. -/
structure ProjRef where
  id : Option Nat
  name : Option String
  client : Option ClientRef
deriving DecidableEq, Repr

/-- The task view nested inside a time entry. -/
structure TaskRef where
  id : Option Nat
  name : Option String
deriving DecidableEq, Repr

/-- The user view nested inside a time entry. -/
structure UserRef where
  id : Option Nat
  first_name : Option String
  last_name : Option String
deriving DecidableEq, Repr

/-- A fetched time entry; every field the Python code reads with
dict.get is optional here, so a missing key is a typed none. -/
structure TimeEntry where
  id : Option Nat
  project : Option ProjRef
  task : Option TaskRef
  user : Option UserRef
  hours : Option Rat
  date : Option String
  notes : Option String
deriving DecidableEq, Repr

/-- A fetched project: the code indexes name and id directly
(src/main.py lines 65 to 66), so they are mandatory; the remaining
fields are read with dict.get by list_projects (lines 332 to 348) and
so are optional. -/
structure Project where
  id : Nat
  name : String
  budget : Option Rat
  hours : Option Rat
  closed : Option Bool
  client : Option ClientRef
  owner : Option UserRef
deriving DecidableEq, Repr

/-- A fetched task: name and id are indexed directly
(src/main.py lines 243 to 244). -/
structure Task where
  id : Nat
  name : String
  budget : Option Rat
  sum_hours : Option Rat
  closed : Option Bool
deriving DecidableEq, Repr

/-- A fetched client: id and name are indexed directly
(src/main.py lines 498 and 505). -/
structure Client where
  id : Nat
  name : String
deriving DecidableEq, Repr

/-- A fetched user: id is indexed directly (src/main.py line 549), the
rest is read with dict.get (lines 554 to 558). -/
structure User where
  id : Nat
  first_name : Option String
  last_name : Option String
  email : Option String
  timezone : Option String
deriving DecidableEq, Repr

/-! ## JSON-like response values

The tool operations return Python dicts; they are modelled as ordered
association lists of JVal values. -/

/-- The value kinds that appear in the response dictionaries of
src/main.py. -/
inductive JVal where
  | null
  | b (v : Bool)
  | num (v : Rat)
  | str (v : String)
  | strs (vs : List String)
  | groups (g : List (String × Rat))
  | entryList (es : List TimeEntry)
  | objs (os : List (List (String × JVal)))
  | cells (rows : List (List JVal))
  | obj (fields : List (String × JVal))
deriving Repr

/-- A response dictionary: an ordered list of key/value pairs. -/
abbrev Response := List (String × JVal)

/-! ## Transport: requests and the HTTP capability -/

/-- The remote endpoints the code addresses (paths under BASE_URL). -/
inductive Endpoint where
  | projects
  | projectTasks (pid : Nat)
  | timeEntriesAll
  | timeEntriesOfProject (pid : Nat)
  | timeEntry (eid : Nat)
  | clients
  | users
deriving DecidableEq, Repr

/-- One HTTP request as assembled by TickAPI.make_request
(src/main.py lines 28 to 41): method, url, query params in insertion
order, JSON body in insertion order. -/
structure Request where
  method : String
  endpoint : Endpoint
  params : List (String × String)
  body : List (String × JVal)

/-- The transport capability. Each channel returns the decoded JSON of
a 2xx response, or the message of the raised exception (non-2xx status
or network failure). The channels are typed by what the caller decodes. -/
structure Transport where
  fetchProjects : Request → Except String (List Project)
  fetchEntries : Request → Except String (List TimeEntry)
  fetchTasks : Request → Except String (List Task)
  fetchClients : Request → Except String (List Client)
  fetchUsers : Request → Except String (List User)
  send : Request → Except String JVal

/-- Python truthiness of an optional string: None and the empty string
are both falsy. -/
def optStr : Option String → Option String
  | none => none
  | some s => if s = "" then none else some s

/-- Python truthiness of an optional integer: None and 0 are both falsy. -/
def optId : Option Nat → Option Nat
  | none => none
  | some 0 => none
  | some (n + 1) => some (n + 1)

/-- Request built by TickAPI.get_projects (src/main.py lines 43 to 47):
page 1 sends no params at all, later pages send page=n. -/
def projectsRequest (page : Nat) : Request :=
  ⟨"GET", .projects, if 1 < page then [("page", toString page)] else [], []⟩

/-- The filter params of a time-entries request (src/main.py lines
76 to 80): start_date and end_date are added only when truthy. -/
def filterParams (sd ed : Option String) : List (String × String) :=
  (match optStr sd with | some s => [("start_date", s)] | none => []) ++
  (match optStr ed with | some e => [("end_date", e)] | none => [])

/-- Request built by TickAPI.get_time_entries (src/main.py lines 69 to
84): project-scoped url when project_id is truthy, filters always,
page=n only for page 2 onwards. -/
def entriesRequest (pid : Option Nat) (sd ed : Option String) (page : Nat) : Request :=
  ⟨"GET",
   (match optId pid with
    | some i => .timeEntriesOfProject i
    | none => .timeEntriesAll),
   filterParams sd ed ++ (if 1 < page then [("page", toString page)] else []),
   []⟩

/-- Request built by TickAPI.get_tasks (src/main.py lines 124 to 127). -/
def tasksRequest (pid : Nat) : Request := ⟨"GET", .projectTasks pid, [], []⟩

/-- Request built by TickAPI.create_time_entry (src/main.py lines
98 to 107). -/
def createRequest (pid tid : Nat) (hours : Rat) (date notes : String) : Request :=
  ⟨"POST", .timeEntriesOfProject pid, [],
   [("task_id", .num tid), ("hours", .num hours), ("date", .str date), ("notes", .str notes)]⟩

/-- Body built by TickAPI.update_time_entry (src/main.py lines 109 to
117): each field is included only when it is not None. -/
def updateBody (hours : Option Rat) (notes : Option String) : List (String × JVal) :=
  (match hours with | some h => [("hours", .num h)] | none => []) ++
  (match notes with | some s => [("notes", .str s)] | none => [])

/-- Request built by TickAPI.update_time_entry. -/
def updateRequest (eid : Nat) (body : List (String × JVal)) : Request :=
  ⟨"PUT", .timeEntry eid, [], body⟩

/-- Request built by TickAPI.delete_time_entry (src/main.py lines
119 to 122). -/
def deleteRequest (eid : Nat) : Request := ⟨"DELETE", .timeEntry eid, [], []⟩

/-- Request built by TickAPI.get_clients (src/main.py lines 129 to 132). -/
def clientsRequest : Request := ⟨"GET", .clients, [], []⟩

/-- Request built by TickAPI.get_users (src/main.py lines 134 to 137). -/
def usersRequest : Request := ⟨"GET", .users, [], []⟩

/-! ## The pagination loop

TickAPI.get_all_projects and TickAPI.get_all_time_entries run the same
while-loop: request page 1, 2, ... until a page comes back empty,
concatenating pages in order (src/main.py lines 49 to 59 and 86 to 96).
The loop has no page bound in the source; the model adds fuel, and the
theorems assume the fuel exceeds the number of pages the transport
serves. Results are paired with the ordered list of requests issued. -/

/-- The generic page loop. fetch n performs the request for page n,
reqOf n is that request (logged even when the fetch fails, since the
failing request was issued). -/
def fetchAllLoop {α : Type} (fetch : Nat → Except String (List α)) (reqOf : Nat → Request) :
    Nat → Nat → Except String (List α) × List Request
  | 0, _ => (.ok [], [])
  | fuel + 1, page =>
    match fetch page with
    | .error e => (.error e, [reqOf page])
    | .ok [] => (.ok [], [reqOf page])
    | .ok (x :: xs) =>
      match fetchAllLoop fetch reqOf fuel (page + 1) with
      | (.error e, reqs) => (.error e, reqOf page :: reqs)
      | (.ok rest, reqs) => (.ok ((x :: xs) ++ rest), reqOf page :: reqs)

namespace TickAPI

/-- TickAPI.get_all_projects (src/main.py lines 49 to 59). -/
def get_all_projects (t : Transport) (fuel : Nat) : Except String (List Project) × List Request :=
  fetchAllLoop (fun p => t.fetchProjects (projectsRequest p)) projectsRequest fuel 1

/-- TickAPI.find_project_id name matching (src/main.py lines 64 to 67):
first project whose lower-cased name contains the lower-cased query. -/
def findProj (projects : List Project) (query : String) : Option Nat :=
  match projects with
  | [] => none
  | p :: rest => if containsCI p.name query then some p.id else findProj rest query

/-- TickAPI.find_project_id (src/main.py lines 61 to 67): fetch every
project, then scan for the first case-insensitive partial match. -/
def find_project_id (t : Transport) (fuel : Nat) (query : String) :
    Except String (Option Nat) × List Request :=
  match get_all_projects t fuel with
  | (.error e, reqs) => (.error e, reqs)
  | (.ok ps, reqs) => (.ok (findProj ps query), reqs)

/-- TickAPI.get_all_time_entries (src/main.py lines 86 to 96). -/
def get_all_time_entries (t : Transport) (fuel : Nat) (pid : Option Nat) (sd ed : Option String) :
    Except String (List TimeEntry) × List Request :=
  fetchAllLoop (fun p => t.fetchEntries (entriesRequest pid sd ed p)) (entriesRequest pid sd ed) fuel 1

end TickAPI

/-! ## Aggregation -/

/-- Add v to the running total of key k: Python
m[k] = m.get(k, 0) + v on an insertion-ordered dict. -/
def addHours (m : List (String × Rat)) (k : String) (v : Rat) : List (String × Rat) :=
  match m with
  | [] => [(k, v)]
  | (k1, v1) :: rest => if k1 = k then (k1, v1 + v) :: rest else (k1, v1) :: addHours rest k v

/-- Group the entries by a string key, summing hours with missing
hours read as 0 (src/main.py lines 188 to 191, 451 to 460). -/
def groupHours (key : TimeEntry → String) (entries : List TimeEntry) : List (String × Rat) :=
  entries.foldl (fun m e => addHours m (key e) (e.hours.getD 0)) []

/-- total_hours = sum(entry.get("hours", 0) for entry in entries). -/
def totalHours (entries : List TimeEntry) : Rat :=
  (entries.map (fun e => e.hours.getD 0)).sum

/-- Key for the by-user grouping: entry.get("user", {}).get("first_name", "Unknown"). -/
def userKey (e : TimeEntry) : String :=
  match e.user with
  | some u => u.first_name.getD "Unknown"
  | none => "Unknown"

/-- Key for the by-project grouping: entry.get("project", {}).get("name", "Unknown"). -/
def projectKey (e : TimeEntry) : String :=
  match e.project with
  | some p => p.name.getD "Unknown"
  | none => "Unknown"

/-- Key for the by-date grouping: entry.get("date", "Unknown"). -/
def dateKey (e : TimeEntry) : String := e.date.getD "Unknown"

/-- daily_hours of get_time_summary_by_period (src/main.py lines 457 to 460). -/
def dailyHours (entries : List TimeEntry) : List (String × Rat) := groupHours dateKey entries

/-- average_hours_per_day = total_hours / max(1, len(daily_hours))
(src/main.py line 467). -/
def averagePerDay (entries : List TimeEntry) : Rat :=
  totalHours entries / ((max 1 (dailyHours entries).length : Nat) : Rat)

/-- Stable insertion of a pair into a list sorted by descending hours:
the new pair goes in front of the first resident pair whose value does
not exceed it. -/
def insertDesc (x : String × Rat) : List (String × Rat) → List (String × Rat)
  | [] => [x]
  | y :: ys => if y.2 ≤ x.2 then x :: y :: ys else y :: insertDesc x ys

/-- Stable sort by descending hours. Python sorted(items, key by value,
descending) is a stable sort, and any two stable sorts for the same
total preorder agree on every input, so this insertion sort has exactly
the behaviour of src/main.py line 468. -/
def sortByHoursDesc : List (String × Rat) → List (String × Rat)
  | [] => []
  | x :: xs => insertDesc x (sortByHoursDesc xs)

/-- hours_by_project of get_time_summary_by_period (src/main.py lines
451 to 454 and 468): group by project name, then sort by summed hours
descending, keeping encounter order on ties. -/
def hoursByProject (entries : List TimeEntry) : List (String × Rat) :=
  sortByHoursDesc (groupHours projectKey entries)

/-! ## Tool operations

Each tool returns the response dictionary together with the requests
issued. Python raising-and-catching at the operation boundary is the
match on the Except value of the transport work. -/

/-- One optional date argument fails validation when it is truthy and
strptime rejects it (src/main.py lines 160 to 166). -/
def badDate : Option String → Bool
  | none => false
  | some s => if s = "" then false else (parseDate s).isNone

/-- The date-validation guard of the get_time_entries tool. -/
def badDates (sd ed : Option String) : Bool := badDate sd || badDate ed

/-- The except-branch response of the get_time_entries tool
(src/main.py line 204). -/
def fetchFail (e : String) : Response :=
  [("error", .str ("Failed to fetch time entries: " ++ e))]

/-- The success response of the get_time_entries tool (src/main.py
lines 193 to 201). -/
def gteResponse (project : Option String) (pid : Option Nat) (sd ed : Option String)
    (entries : List TimeEntry) : Response :=
  [("project", .str ((optStr project).getD "All projects")),
   ("project_id", match pid with | some i => .num i | none => .null),
   ("date_range", .str (((optStr sd).getD "beginning") ++ " to " ++ ((optStr ed).getD "now"))),
   ("total_entries", .num (entries.length : Nat)),
   ("total_hours", .num (totalHours entries)),
   ("hours_by_user", .groups (groupHours userKey entries)),
   ("entries", .entryList entries)]

/-- Fetch the entries and assemble the success response (src/main.py
lines 181 to 204); acc carries the requests already issued while
resolving the project name. -/
def finishEntries (t : Transport) (fuel : Nat) (project : Option String) (pid : Option Nat)
    (sd ed : Option String) (acc : List Request) : Response × List Request :=
  match TickAPI.get_all_time_entries t fuel pid sd ed with
  | (.error e, reqs) => (fetchFail e, acc ++ reqs)
  | (.ok entries, reqs) => (gteResponse project pid sd ed entries, acc ++ reqs)

/-- The get_time_entries tool (src/main.py lines 142 to 204). -/
def get_time_entries (t : Transport) (fuel : Nat) (project sd ed : Option String) :
    Response × List Request :=
  if badDates sd ed then ([("error", .str "Invalid date format. Use YYYY-MM-DD")], [])
  else
    match optStr project with
    | none => finishEntries t fuel project none sd ed []
    | some pname =>
      match TickAPI.find_project_id t fuel pname with
      | (.error e, reqs) => (fetchFail e, reqs)
      | (.ok pidOpt, reqs) =>
        match optId pidOpt with
        | none =>
          match TickAPI.get_all_projects t fuel with
          | (.error e, reqs2) => (fetchFail e, reqs ++ reqs2)
          | (.ok ps, reqs2) =>
            ([("error", .str ("Project '" ++ pname ++ "' not found")),
              ("available_projects", .strs (ps.map Project.name))], reqs ++ reqs2)
        | some pid => finishEntries t fuel project (some pid) sd ed reqs

/-- The except-branch response of the create_time_entry tool
(src/main.py line 264). -/
def createFail (e : String) : Response :=
  [("error", .str ("Failed to create time entry: " ++ e))]

/-- The create_time_entry tool (src/main.py lines 206 to 264). On a
project miss it returns only the error message; on a task miss it also
returns available_tasks. -/
def create_time_entry (t : Transport) (fuel : Nat) (project task : String) (hours : Rat)
    (date notes : String) : Response × List Request :=
  if (parseDate date).isNone then ([("error", .str "Invalid date format. Use YYYY-MM-DD")], [])
  else
    match TickAPI.find_project_id t fuel project with
    | (.error e, reqs) => (createFail e, reqs)
    | (.ok pidOpt, reqs) =>
      match optId pidOpt with
      | none => ([("error", .str ("Project '" ++ project ++ "' not found"))], reqs)
      | some pid =>
        match t.fetchTasks (tasksRequest pid) with
        | .error e => (createFail e, reqs ++ [tasksRequest pid])
        | .ok ts =>
          match optId ((ts.find? (fun tk => containsCI tk.name task)).map Task.id) with
          | none =>
            ([("error", .str ("Task '" ++ task ++ "' not found in project '" ++ project ++ "'")),
              ("available_tasks", .strs (ts.map Task.name))], reqs ++ [tasksRequest pid])
          | some tid =>
            match t.send (createRequest pid tid hours date notes) with
            | .error e => (createFail e, reqs ++ [tasksRequest pid, createRequest pid tid hours date notes])
            | .ok v =>
              ([("success", .b true),
                ("message", .str ("Created " ++ toString hours ++ " hour entry for " ++ project ++ " - " ++ task)),
                ("entry", v)], reqs ++ [tasksRequest pid, createRequest pid tid hours date notes])

/-- The update_time_entry tool (src/main.py lines 266 to 296): rejects
the call before any request when both optional fields are absent,
otherwise issues a single PUT whose body holds exactly the supplied
fields. -/
def update_time_entry (t : Transport) (entry_id : Nat) (hours : Option Rat)
    (notes : Option String) : Response × List Request :=
  if hours.isNone && notes.isNone then
    ([("error", .str "Must provide either hours or notes to update")], [])
  else
    match t.send (updateRequest entry_id (updateBody hours notes)) with
    | .error e =>
      ([("error", .str ("Failed to update time entry: " ++ e))],
       [updateRequest entry_id (updateBody hours notes)])
    | .ok v =>
      ([("success", .b true),
        ("message", .str ("Updated time entry " ++ toString entry_id)),
        ("entry", v)], [updateRequest entry_id (updateBody hours notes)])

/-- The delete_time_entry tool (src/main.py lines 298 to 318): a single
DELETE; success is the absence of a transport error. -/
def delete_time_entry (t : Transport) (entry_id : Nat) : Response × List Request :=
  match t.send (deleteRequest entry_id) with
  | .error e =>
    ([("error", .str ("Failed to delete time entry: " ++ e))], [deleteRequest entry_id])
  | .ok _ =>
    ([("success", .b true), ("message", .str ("Deleted time entry " ++ toString entry_id))],
     [deleteRequest entry_id])

/-- The per-task dictionary of the get_project_tasks response
(src/main.py lines 378 to 387). -/
def taskInfo (tk : Task) : List (String × JVal) :=
  [("id", .num tk.id), ("name", .str tk.name), ("budget", .num (tk.budget.getD 0)),
   ("hours_used", .num (tk.sum_hours.getD 0)), ("is_closed", .b (tk.closed.getD false))]

/-- The get_project_tasks tool (src/main.py lines 356 to 391). On a
project miss it returns only the error message, with no candidate list. -/
def get_project_tasks (t : Transport) (fuel : Nat) (project : String) :
    Response × List Request :=
  match TickAPI.find_project_id t fuel project with
  | (.error e, reqs) => ([("error", .str ("Failed to fetch project tasks: " ++ e))], reqs)
  | (.ok pidOpt, reqs) =>
    match optId pidOpt with
    | none => ([("error", .str ("Project '" ++ project ++ "' not found"))], reqs)
    | some pid =>
      match t.fetchTasks (tasksRequest pid) with
      | .error e =>
        ([("error", .str ("Failed to fetch project tasks: " ++ e))], reqs ++ [tasksRequest pid])
      | .ok ts =>
        ([("project", .str project), ("project_id", .num pid),
          ("total_tasks", .num (ts.length : Nat)), ("tasks", .objs (ts.map taskInfo))],
         reqs ++ [tasksRequest pid])

/-! ## get_time_summary_by_period -/

/-- Outcome of computing the period window (src/main.py lines 409 to 442). -/
inductive WindowResult where
  | invalidPeriod
  | parseError (msg : String)
  | window (start : Date) (stop : Date)
deriving DecidableEq, Repr

/-- The window for a recognised period keyword and an anchor date:
day is the anchor itself; week runs from the anchor minus its
Monday-based weekday index for seven days; month runs from the first
of the anchor month to the first of the next month minus one day,
rolling December into January of the next year (src/main.py lines
411 to 440). -/
def windowFor (period : String) (a : Date) : WindowResult :=
  if period = "day" then .window a a
  else if period = "week" then
    let s := subDays a (weekday a)
    .window s (addDays s 6)
  else
    let s : Date := ⟨a.year, a.month, 1⟩
    let nm : Date := if a.month = 12 then ⟨a.year + 1, 1, 1⟩ else ⟨a.year, a.month + 1, 1⟩
    .window s (subDays nm 1)

/-- Resolve the period and the optional start_date argument into a
window; an unrecognised period is rejected before the anchor is even
parsed (the else branch of src/main.py lines 441 to 442), and a start
date strptime cannot parse surfaces through the generic except as a
failure message. -/
def summaryWindow (period : String) (start_date : Option String) (today : Date) : WindowResult :=
  if period = "day" ∨ period = "week" ∨ period = "month" then
    match optStr start_date with
    | some s =>
      match parseDate s with
      | none => .parseError ("time data '" ++ s ++ "' does not match format '%Y-%m-%d'")
      | some a => windowFor period a
    | none => windowFor period today
  else .invalidPeriod

/-- The get_time_summary_by_period tool (src/main.py lines 393 to 473). -/
def get_time_summary_by_period (t : Transport) (fuel : Nat) (today : Date) (period : String)
    (start_date : Option String) : Response × List Request :=
  match summaryWindow period start_date today with
  | .invalidPeriod => ([("error", .str "Period must be 'day', 'week', or 'month'")], [])
  | .parseError e => ([("error", .str ("Failed to get time summary: " ++ e))], [])
  | .window s e_ =>
    match TickAPI.get_all_time_entries t fuel none (some s.fmt) (some e_.fmt) with
    | (.error e, reqs) => ([("error", .str ("Failed to get time summary: " ++ e))], reqs)
    | (.ok entries, reqs) =>
      ([("period", .str period),
        ("date_range", .str (s.fmt ++ " to " ++ e_.fmt)),
        ("total_hours", .num (totalHours entries)),
        ("total_entries", .num (entries.length : Nat)),
        ("average_hours_per_day", .num (averagePerDay entries)),
        ("hours_by_project", .groups (hoursByProject entries)),
        ("hours_by_date", .groups (dailyHours entries))], reqs)

/-! ## get_time_entries_for_sheets -/

/-- The fixed header row (src/main.py line 608). -/
def sheetHeaders : List String := ["Date", "Project", "Task", "User", "Hours", "Notes", "Client"]

/-- One data row (src/main.py lines 611 to 621): every missing nested
field renders as the empty string, hours default to 0. -/
def sheetsRow (e : TimeEntry) : List JVal :=
  [.str (e.date.getD ""),
   .str (match e.project with | some p => p.name.getD "" | none => ""),
   .str (match e.task with | some tk => tk.name.getD "" | none => ""),
   .str (trimStr ((match e.user with | some u => u.first_name.getD "" | none => "") ++ " " ++
                  (match e.user with | some u => u.last_name.getD "" | none => ""))),
   .num (e.hours.getD 0),
   .str (e.notes.getD ""),
   .str (match e.project with
         | some p => (match p.client with | some c => c.name.getD "" | none => "")
         | none => "")]

/-- The get_time_entries_for_sheets tool (src/main.py lines 577 to 637):
delegates to get_time_entries, passes errors through unchanged, and
otherwise prepends the header row to one row per entry. -/
def get_time_entries_for_sheets (t : Transport) (fuel : Nat) (project sd ed : Option String)
    (format_for_sheets : Bool) : Response × List Request :=
  match get_time_entries t fuel project sd ed with
  | (result, reqs) =>
    if (result.lookup "error").isSome then (result, reqs)
    else if !format_for_sheets then (result, reqs)
    else
      let entries := match result.lookup "entries" with
        | some (.entryList es) => es
        | _ => []
      let rows := (sheetHeaders.map JVal.str) :: entries.map sheetsRow
      ([("success", .b true),
        ("sheet_data", .cells rows),
        ("total_rows", .num (rows.length : Nat)),
        ("headers", .strs sheetHeaders),
        ("summary", .obj
          [("total_entries", (result.lookup "total_entries").getD (.num 0)),
           ("total_hours", (result.lookup "total_hours").getD (.num 0)),
           ("date_range", (result.lookup "date_range").getD (.str "")),
           ("project", (result.lookup "project").getD (.str ""))])], reqs)

/-! ## list_projects, list_clients, get_team_overview -/

/-- The per-project dictionary of the list_projects response
(src/main.py lines 339 to 351). -/
def projectInfo (p : Project) : List (String × JVal) :=
  [("id", .num p.id), ("name", .str p.name),
   ("client", .str (match p.client with | some c => c.name.getD "No client" | none => "No client")),
   ("budget", .num (p.budget.getD 0)),
   ("hours_used", .num (p.hours.getD 0)),
   ("budget_remaining", .num (p.budget.getD 0 - p.hours.getD 0)),
   ("is_closed", .b (p.closed.getD false)),
   ("owner", .str (match p.owner with | some o => o.first_name.getD "Unknown" | none => "Unknown"))]

/-- The list_projects tool (src/main.py lines 320 to 354). -/
def list_projects (t : Transport) (fuel : Nat) : Response × List Request :=
  match TickAPI.get_all_projects t fuel with
  | (.error e, reqs) => ([("error", .str ("Failed to fetch projects: " ++ e))], reqs)
  | (.ok ps, reqs) =>
    ([("total_projects", .num (ps.length : Nat)),
      ("total_budget", .num (ps.map (fun p => p.budget.getD 0)).sum),
      ("total_hours_logged", .num (ps.map (fun p => p.hours.getD 0)).sum),
      ("projects", .objs (ps.map projectInfo))], reqs)

/-- Append a project under its client id: Python appends to
client_projects[client_id], creating the list on first sight
(src/main.py lines 489 to 494). -/
def addClientProj (m : List (Nat × List Project)) (cid : Nat) (p : Project) :
    List (Nat × List Project) :=
  match m with
  | [] => [(cid, [p])]
  | (c, l) :: rest =>
    if c = cid then (c, l ++ [p]) :: rest else (c, l) :: addClientProj rest cid p

/-- Group the fetched projects by truthy client id, preserving
insertion order (src/main.py lines 488 to 494). -/
def clientProjects (projects : List Project) : List (Nat × List Project) :=
  projects.foldl (fun m p =>
    match optId (p.client.bind ClientRef.id) with
    | some cid => addClientProj m cid p
    | none => m) []

/-- The per-client dictionary of the list_clients response
(src/main.py lines 496 to 510). -/
def clientInfo (cp : List (Nat × List Project)) (c : Client) : List (String × JVal) :=
  let l := (cp.lookup c.id).getD []
  [("id", .num c.id), ("name", .str c.name),
   ("project_count", .num (l.length : Nat)),
   ("total_budget", .num (l.map (fun p => p.budget.getD 0)).sum),
   ("total_hours_logged", .num (l.map (fun p => p.hours.getD 0)).sum),
   ("projects", .strs (l.map Project.name))]

/-- The list_clients tool (src/main.py lines 475 to 518): one clients
request, then the full project listing, grouped locally. -/
def list_clients (t : Transport) (fuel : Nat) : Response × List Request :=
  match t.fetchClients clientsRequest with
  | .error e => ([("error", .str ("Failed to fetch clients: " ++ e))], [clientsRequest])
  | .ok cs =>
    match TickAPI.get_all_projects t fuel with
    | (.error e, reqs) =>
      ([("error", .str ("Failed to fetch clients: " ++ e))], clientsRequest :: reqs)
    | (.ok ps, reqs) =>
      ([("total_clients", .num (cs.length : Nat)),
        ("clients", .objs (cs.map (clientInfo (clientProjects ps))))], clientsRequest :: reqs)

/-- Accumulate one recent entry into a user's (hours, entries) totals
(src/main.py lines 537 to 544). -/
def addActivity (m : List (Nat × (Rat × Nat))) (uid : Nat) (h : Rat) :
    List (Nat × (Rat × Nat)) :=
  match m with
  | [] => [(uid, (h, 1))]
  | (u, a) :: rest =>
    if u = uid then (u, (a.1 + h, a.2 + 1)) :: rest else (u, a) :: addActivity rest uid h

/-- The user_activity mapping over the recent entries, keyed by truthy
user id (src/main.py lines 537 to 544). -/
def userActivity (es : List TimeEntry) : List (Nat × (Rat × Nat)) :=
  es.foldl (fun m e =>
    match optId (e.user.bind UserRef.id) with
    | some uid => addActivity m uid (e.hours.getD 0)
    | none => m) []

/-- The per-user dictionary of the get_team_overview response
(src/main.py lines 547 to 560). -/
def userInfo (act : List (Nat × (Rat × Nat))) (u : User) : List (String × JVal) :=
  let a := (act.lookup u.id).getD (0, 0)
  [("id", .num u.id),
   ("name", .str (trimStr ((u.first_name.getD "") ++ " " ++ (u.last_name.getD "")))),
   ("email", .str (u.email.getD "")),
   ("recent_hours_7_days", .num a.1),
   ("recent_entries_7_days", .num (a.2 : Nat)),
   ("timezone", .str (u.timezone.getD "")),
   ("is_active", .b (decide (0 < a.1)))]

/-- total_recent_hours: sum of hours over user_activity values
(src/main.py line 562). -/
def totalActivity (act : List (Nat × (Rat × Nat))) : Rat := (act.map (fun x => x.2.1)).sum

/-- active_users: how many listed users have positive recent hours
(src/main.py lines 559 and 563). -/
def activeCount (act : List (Nat × (Rat × Nat))) (users : List User) : Nat :=
  (users.filter (fun u => decide (0 < ((act.lookup u.id).getD (0, 0)).1))).length

/-- The get_team_overview tool (src/main.py lines 520 to 574): one
users request, then the paginated entries of the last seven days. -/
def get_team_overview (t : Transport) (fuel : Nat) (today : Date) : Response × List Request :=
  match t.fetchUsers usersRequest with
  | .error e => ([("error", .str ("Failed to fetch team overview: " ++ e))], [usersRequest])
  | .ok us =>
    match TickAPI.get_all_time_entries t fuel none
        (some (subDays today 7).fmt) (some today.fmt) with
    | (.error e, reqs) =>
      ([("error", .str ("Failed to fetch team overview: " ++ e))], usersRequest :: reqs)
    | (.ok es, reqs) =>
      ([("total_users", .num (us.length : Nat)),
        ("active_users_last_7_days", .num ((activeCount (userActivity es) us : Nat) : Rat)),
        ("total_hours_last_7_days", .num (totalActivity (userActivity es))),
        ("average_hours_per_active_user", .num (totalActivity (userActivity es) /
          ((max 1 (activeCount (userActivity es) us) : Nat) : Rat))),
        ("users", .objs (us.map (userInfo (userActivity es))))], usersRequest :: reqs)

/-! ## Demo data for concrete witnesses -/

/-- Demo time entry: 2 hours on d1. -/
def entryD1 : TimeEntry := ⟨some 101, none, none, none, some 2, some "d1", none⟩

/-- Demo time entry: 3 hours on d1. -/
def entryD2 : TimeEntry := ⟨some 102, none, none, none, some 3, some "d1", none⟩

/-- Demo time entry: 1 hour on d2. -/
def entryD3 : TimeEntry := ⟨some 103, none, none, none, some 1, some "d2", none⟩

/-- Demo project. -/
def acmeCorp : Project := ⟨7, "Acme Corp", none, none, none, none, none⟩

/-- Demo project. -/
def acmeLabs : Project := ⟨8, "Acme Labs", none, none, none, none, none⟩

/-- Demo task list. -/
def demoTasks : List Task := [⟨11, "Design", none, none, none⟩]

/-- Demo transport: one non-empty page of projects and one non-empty
page of time entries, every later page empty; tasks and mutations
always succeed. -/
def demoT : Transport :=
  ⟨fun r => if r.params = [] then .ok [acmeCorp, acmeLabs] else .ok [],
   fun r => if r.params.lookup "page" = none then .ok [entryD1, entryD2, entryD3] else .ok [],
   fun _ => .ok demoTasks,
   fun _ => .ok [⟨21, "Acme Holdings"⟩],
   fun _ => .ok [⟨31, some "Ada", some "L", none, none⟩],
   fun _ => .ok .null⟩

/-- A transport on which every request fails with the same cause. -/
def failT : Transport :=
  ⟨fun _ => .error "boom", fun _ => .error "boom", fun _ => .error "boom",
   fun _ => .error "boom", fun _ => .error "boom", fun _ => .error "boom"⟩

/-- Demo page map for projects. -/
def pagesPD : Nat → List Project := fun n => if n = 1 then [acmeCorp, acmeLabs] else []

/-- Demo page map for time entries. -/
def pagesED : Nat → List TimeEntry := fun n => if n = 1 then [entryD1, entryD2, entryD3] else []

/-! ## Pagination lemmas -/

/-- With enough fuel, a page loop started at page with pages
page..k non-empty and page k+1 empty returns the concatenation of
those pages and logs one request per visited page. -/
theorem fetchAllLoop_run {α : Type} (fetch : Nat → Except String (List α)) (reqOf : Nat → Request)
    (pages : Nat → List α) (k : Nat)
    (hok : ∀ n, 1 ≤ n → n ≤ k → fetch n = .ok (pages n))
    (hne : ∀ n, 1 ≤ n → n ≤ k → pages n ≠ [])
    (hend : fetch (k + 1) = .ok []) :
    ∀ fuel page, 1 ≤ page → page ≤ k + 1 → k + 2 - page ≤ fuel →
      fetchAllLoop fetch reqOf fuel page =
        (.ok ((List.range' page (k + 1 - page)).map pages).flatten,
         (List.range' page (k + 2 - page)).map reqOf) := by
  intro fuel
  induction fuel with
  | zero => intro page h1 h2 h3; omega
  | succ fuel ih =>
    intro page h1 h2 h3
    by_cases hpk : page = k + 1
    · subst hpk
      rw [show k + 1 - (k + 1) = 0 from by omega, show k + 2 - (k + 1) = 1 from by omega]
      simp [fetchAllLoop, hend]
    · have hle : page ≤ k := by omega
      have hf := hok page h1 hle
      have hn := hne page h1 hle
      obtain ⟨x, xs, hx⟩ : ∃ x xs, pages page = x :: xs := by
        cases hp : pages page with
        | nil => exact absurd hp hn
        | cons a l => exact ⟨a, l, rfl⟩
      have ihr := ih (page + 1) (by omega) (by omega) (by omega)
      rw [show k + 1 - (page + 1) = k - page from by omega,
          show k + 2 - (page + 1) = k + 1 - page from by omega] at ihr
      rw [show k + 1 - page = (k - page) + 1 from by omega,
          show k + 2 - page = (k + 1 - page) + 1 from by omega,
          List.range'_succ, List.range'_succ]
      simp only [fetchAllLoop]
      rw [hf, hx]
      simp only []
      rw [ihr]
      simp [hx, show page + 1 = page + 1 from rfl]

/-- The loop from page 1: k non-empty pages then an empty page give
the concatenation of the k pages in order and exactly k + 1 requests,
for pages 1 through k + 1. -/
theorem fetchAllLoop_spec {α : Type} (fetch : Nat → Except String (List α)) (reqOf : Nat → Request)
    (pages : Nat → List α) (k : Nat)
    (hok : ∀ n, 1 ≤ n → n ≤ k → fetch n = .ok (pages n))
    (hne : ∀ n, 1 ≤ n → n ≤ k → pages n ≠ [])
    (hend : fetch (k + 1) = .ok [])
    (fuel : Nat) (hfuel : k + 1 ≤ fuel) :
    fetchAllLoop fetch reqOf fuel 1 =
      (.ok ((List.range' 1 k).map pages).flatten, (List.range' 1 (k + 1)).map reqOf) := by
  have h := fetchAllLoop_run fetch reqOf pages k hok hne hend fuel 1 (by omega) (by omega) (by omega)
  rw [show k + 1 - 1 = k from by omega, show k + 2 - 1 = k + 1 from by omega] at h
  exact h

/-- A failing first fetch aborts the loop after that single request. -/
theorem fetchAllLoop_err {α : Type} (fetch : Nat → Except String (List α)) (reqOf : Nat → Request)
    (c : String) (page fuel : Nat) (h : fetch page = .error c) (hfuel : 1 ≤ fuel) :
    fetchAllLoop fetch reqOf fuel page = (.error c, [reqOf page]) := by
  cases fuel with
  | zero => omega
  | succ n => simp [fetchAllLoop, h]

/-- TickAPI.get_all_time_entries under a transport that serves k
non-empty pages and then an empty one. -/
theorem get_all_time_entries_spec (t : Transport) (pid : Option Nat) (sd ed : Option String)
    (pages : Nat → List TimeEntry) (k : Nat)
    (hok : ∀ n, 1 ≤ n → n ≤ k → t.fetchEntries (entriesRequest pid sd ed n) = .ok (pages n))
    (hne : ∀ n, 1 ≤ n → n ≤ k → pages n ≠ [])
    (hend : t.fetchEntries (entriesRequest pid sd ed (k + 1)) = .ok [])
    (fuel : Nat) (hfuel : k + 1 ≤ fuel) :
    TickAPI.get_all_time_entries t fuel pid sd ed =
      (.ok ((List.range' 1 k).map pages).flatten,
       (List.range' 1 (k + 1)).map (entriesRequest pid sd ed)) :=
  fetchAllLoop_spec _ _ pages k hok hne hend fuel hfuel

/-- TickAPI.get_all_projects under a transport that serves k non-empty
pages and then an empty one. -/
theorem get_all_projects_spec (t : Transport)
    (pages : Nat → List Project) (k : Nat)
    (hok : ∀ n, 1 ≤ n → n ≤ k → t.fetchProjects (projectsRequest n) = .ok (pages n))
    (hne : ∀ n, 1 ≤ n → n ≤ k → pages n ≠ [])
    (hend : t.fetchProjects (projectsRequest (k + 1)) = .ok [])
    (fuel : Nat) (hfuel : k + 1 ≤ fuel) :
    TickAPI.get_all_projects t fuel =
      (.ok ((List.range' 1 k).map pages).flatten, (List.range' 1 (k + 1)).map projectsRequest) :=
  fetchAllLoop_spec _ _ pages k hok hne hend fuel hfuel

/-- C1: for every transport in which pages 1..k of a listing endpoint
return non-empty lists and page k+1 returns an empty list, the
full-fetch operations (get_all_projects, get_all_time_entries) return
the concatenation of the k non-empty pages in page order and issue
exactly k+1 requests; the request for page 1 omits the page query
parameter and every request for page n with n at least 2 includes
page=n, with the same filters passed unchanged on every page request. -/
theorem claim1_pagination
    (t : Transport) (pid : Option Nat) (sd ed : Option String)
    (pagesP : Nat → List Project) (pagesE : Nat → List TimeEntry) (kP kE fuel : Nat)
    (hokP : ∀ n, 1 ≤ n → n ≤ kP → t.fetchProjects (projectsRequest n) = .ok (pagesP n))
    (hneP : ∀ n, 1 ≤ n → n ≤ kP → pagesP n ≠ [])
    (hendP : t.fetchProjects (projectsRequest (kP + 1)) = .ok [])
    (hokE : ∀ n, 1 ≤ n → n ≤ kE → t.fetchEntries (entriesRequest pid sd ed n) = .ok (pagesE n))
    (hneE : ∀ n, 1 ≤ n → n ≤ kE → pagesE n ≠ [])
    (hendE : t.fetchEntries (entriesRequest pid sd ed (kE + 1)) = .ok [])
    (hfP : kP + 1 ≤ fuel) (hfE : kE + 1 ≤ fuel) :
    TickAPI.get_all_projects t fuel =
      (.ok ((List.range' 1 kP).map pagesP).flatten,
       (List.range' 1 (kP + 1)).map projectsRequest) ∧
    (TickAPI.get_all_projects t fuel).2.length = kP + 1 ∧
    TickAPI.get_all_time_entries t fuel pid sd ed =
      (.ok ((List.range' 1 kE).map pagesE).flatten,
       (List.range' 1 (kE + 1)).map (entriesRequest pid sd ed)) ∧
    (TickAPI.get_all_time_entries t fuel pid sd ed).2.length = kE + 1 ∧
    (projectsRequest 1).params = [] ∧
    (∀ n, 2 ≤ n → (projectsRequest n).params = [("page", toString n)]) ∧
    (entriesRequest pid sd ed 1).params = filterParams sd ed ∧
    (∀ n, 2 ≤ n → (entriesRequest pid sd ed n).params =
      filterParams sd ed ++ [("page", toString n)]) := by
  have hP := get_all_projects_spec t pagesP kP hokP hneP hendP fuel hfP
  have hE := get_all_time_entries_spec t pid sd ed pagesE kE hokE hneE hendE fuel hfE
  refine ⟨hP, ?_, hE, ?_, ?_, ?_, ?_, ?_⟩
  · rw [hP]; simp
  · rw [hE]; simp
  · rfl
  · intro n hn; simp [projectsRequest, show 1 < n from by omega]
  · simp [entriesRequest]
  · intro n hn; simp [entriesRequest, show 1 < n from by omega]

/-- Concrete instance of C1: the demo transport serves one non-empty
page on each endpoint, and both full fetches return exactly that page
after two requests. -/
theorem claim1_pagination_witness :
    TickAPI.get_all_projects demoT 2 =
      (.ok [acmeCorp, acmeLabs], [projectsRequest 1, projectsRequest 2]) ∧
    TickAPI.get_all_time_entries demoT 2 none none none =
      (.ok [entryD1, entryD2, entryD3],
       [entriesRequest none none none 1, entriesRequest none none none 2]) := by
  have h := claim1_pagination demoT none none none pagesPD pagesED 1 1 2
    (by intro n h1 h2; have hn : n = 1 := (by omega); subst hn; rfl)
    (by intro n h1 h2; have hn : n = 1 := (by omega); subst hn; simp [pagesPD])
    (by rfl)
    (by intro n h1 h2; have hn : n = 1 := (by omega); subst hn; rfl)
    (by intro n h1 h2; have hn : n = 1 := (by omega); subst hn; simp [pagesED])
    (by rfl)
    (by omega) (by omega)
  refine ⟨?_, ?_⟩
  · have h1 := h.1
    simpa [pagesPD] using h1
  · have h3 := h.2.2.1
    simpa [pagesED] using h3

/-! ## Name-resolution lemmas -/

/-- The empty character list occurs in every list. -/
theorem hasSub_nil (l : List Char) : hasSub [] l = true := by
  cases l <;> simp [hasSub, hasPre, List.isEmpty]

/-- The empty query matches every name. -/
theorem containsCI_empty (s : String) : containsCI s "" = true := by
  unfold containsCI
  have h : lowerStr "" = [] := rfl
  rw [h, hasSub_nil]

/-- findProj misses exactly when no candidate name matches. -/
theorem findProj_none_iff (ps : List Project) (q : String) :
    TickAPI.findProj ps q = none ↔ ∀ p ∈ ps, containsCI p.name q = false := by
  induction ps with
  | nil => simp [TickAPI.findProj]
  | cons a rest ih =>
    by_cases h : containsCI a.name q = true <;>
      simp [TickAPI.findProj, h, ih]

/-- findProj hits exactly the first candidate, in listing order, whose
name matches: every candidate before it misses. -/
theorem findProj_some_iff (ps : List Project) (q : String) (i : Nat) :
    TickAPI.findProj ps q = some i ↔
      ∃ l p r, ps = l ++ p :: r ∧ containsCI p.name q = true ∧ p.id = i ∧
        ∀ p2 ∈ l, containsCI p2.name q = false := by
  induction ps with
  | nil =>
    simp only [TickAPI.findProj]
    constructor
    · intro h; exact absurd h (by simp)
    · rintro ⟨l, p, r, hsplit, -, -, -⟩
      exact absurd hsplit (by simp)
  | cons a rest ih =>
    by_cases h : containsCI a.name q = true
    · simp only [TickAPI.findProj, h, if_true]
      constructor
      · intro hi
        refine ⟨[], a, rest, rfl, h, by simpa using hi, by simp⟩
      · rintro ⟨l, p, r, hsplit, hp, hpi, hnone⟩
        cases l with
        | nil =>
          simp only [List.nil_append, List.cons.injEq] at hsplit
          rw [← hpi, ← hsplit.1]
        | cons b l2 =>
          simp only [List.cons_append, List.cons.injEq] at hsplit
          have hb := hnone b (by simp)
          rw [← hsplit.1] at hb
          rw [h] at hb
          exact absurd hb (by simp)
    · have hf : containsCI a.name q = false := by simpa using h
      simp only [TickAPI.findProj, hf, Bool.false_eq_true, if_false]
      rw [ih]
      constructor
      · rintro ⟨l, p, r, hsplit, hp, hpi, hnone⟩
        refine ⟨a :: l, p, r, by simp [hsplit], hp, hpi, ?_⟩
        intro p2 hp2
        rcases List.mem_cons.mp hp2 with h1 | h1
        · rw [h1]; exact hf
        · exact hnone p2 h1
      · rintro ⟨l, p, r, hsplit, hp, hpi, hnone⟩
        cases l with
        | nil =>
          simp only [List.nil_append, List.cons.injEq] at hsplit
          rw [hsplit.1] at hf
          rw [hp] at hf
          exact absurd hf (by simp)
        | cons b l2 =>
          simp only [List.cons_append, List.cons.injEq] at hsplit
          exact ⟨l2, p, r, hsplit.2, hp, hpi, fun p2 hmem => hnone p2 (by simp [hmem])⟩

/-- C4: for every candidate project list and query string, name
resolution (find_project_id) returns the id of the first candidate in
listing order whose lower-cased name contains the lower-cased query as
a substring, and a not-found result when no candidate matches; in
particular resolving acme against the two Acme projects returns 1, and
the empty query matches the first candidate of any non-empty list. -/
theorem claim4_name_resolution (ps : List Project) (q : String) :
    (∀ i, TickAPI.findProj ps q = some i ↔
      ∃ l p r, ps = l ++ p :: r ∧ containsCI p.name q = true ∧ p.id = i ∧
        ∀ p2 ∈ l, containsCI p2.name q = false) ∧
    (TickAPI.findProj ps q = none ↔ ∀ p ∈ ps, containsCI p.name q = false) ∧
    (∀ p rest, TickAPI.findProj (p :: rest) "" = some p.id) ∧
    TickAPI.findProj [⟨1, "Acme Corp", none, none, none, none, none⟩,
      ⟨2, "Acme Labs", none, none, none, none, none⟩] "acme" = some 1 ∧
    (∀ (t : Transport) (fuel : Nat) (ps2 : List Project) (reqs : List Request),
      TickAPI.get_all_projects t fuel = (.ok ps2, reqs) →
      TickAPI.find_project_id t fuel q = (.ok (TickAPI.findProj ps2 q), reqs)) := by
  refine ⟨fun i => findProj_some_iff ps q i, findProj_none_iff ps q, ?_, by decide, ?_⟩
  · intro p rest
    simp [TickAPI.findProj, containsCI_empty]
  · intro t fuel ps2 reqs hget
    unfold TickAPI.find_project_id
    rw [hget]

/-- Concrete instance of C4: resolving acme through the demo transport
finds the first matching project, id 7, and resolving through an
explicitly given candidate list matches the claim example. -/
theorem claim4_name_resolution_witness :
    TickAPI.find_project_id demoT 2 "acme" =
      (.ok (TickAPI.findProj [acmeCorp, acmeLabs] "acme"), [projectsRequest 1, projectsRequest 2]) ∧
    TickAPI.findProj [acmeCorp, acmeLabs] "acme" = some 7 := by
  constructor
  · exact (claim4_name_resolution [acmeCorp, acmeLabs] "acme").2.2.2.2 demoT 2
      [acmeCorp, acmeLabs] [projectsRequest 1, projectsRequest 2] (by rfl)
  · decide

/-! ## Aggregation lemmas -/

/-- Keys after one addHours step: an existing key leaves the key list
unchanged, a new key is appended at the end. -/
theorem addHours_keys (m : List (String × Rat)) (k : String) (v : Rat) :
    (addHours m k v).map Prod.fst =
      if k ∈ m.map Prod.fst then m.map Prod.fst else m.map Prod.fst ++ [k] := by
  induction m with
  | nil => simp [addHours]
  | cons a m ih =>
    obtain ⟨k1, v1⟩ := a
    by_cases h : k1 = k
    · simp [addHours, h]
    · simp only [addHours, h, if_false, List.map_cons]
      rw [ih]
      by_cases h2 : k ∈ m.map Prod.fst
      · simp [h2, h, Ne.symm h]
      · simp [h2, h, Ne.symm h]

/-- The grouping fold keeps the key list duplicate-free. -/
theorem groupHours_fold_nodup (key : TimeEntry → String) (entries : List TimeEntry) :
    ∀ m : List (String × Rat), (m.map Prod.fst).Nodup →
      ((entries.foldl (fun m e => addHours m (key e) (e.hours.getD 0)) m).map Prod.fst).Nodup := by
  induction entries with
  | nil => intro m hm; simpa
  | cons e rest ih =>
    intro m hm
    simp only [List.foldl_cons]
    apply ih
    rw [addHours_keys]
    by_cases h2 : key e ∈ m.map Prod.fst
    · simpa [h2]
    · simp [h2, List.nodup_append, hm]

/-- Each grouped view has pairwise-distinct keys, so its length is the
number of distinct group keys occurring among the entries. -/
theorem groupHours_keys_nodup (key : TimeEntry → String) (entries : List TimeEntry) :
    ((groupHours key entries).map Prod.fst).Nodup :=
  groupHours_fold_nodup key entries [] (by simp)

/-- C3: for every sequence of time entries, total_hours is the sum of
every hours field with a missing field contributing 0, and
average_hours_per_day is total_hours divided by max (1, number of
distinct date keys in the by-date grouping); the three-entry example
gives total 6, by-date d1 to 5 and d2 to 1, and average 3, and the
empty entry set gives totals 0 and 0 with no division by zero. -/
theorem claim3_aggregation (entries : List TimeEntry) :
    totalHours entries = (entries.map (fun e => e.hours.getD 0)).sum ∧
    averagePerDay entries =
      totalHours entries / ((max 1 (dailyHours entries).length : Nat) : Rat) ∧
    ((dailyHours entries).map Prod.fst).Nodup ∧
    totalHours [entryD1, entryD2, entryD3] = 6 ∧
    dailyHours [entryD1, entryD2, entryD3] = [("d1", 5), ("d2", 1)] ∧
    averagePerDay [entryD1, entryD2, entryD3] = 3 ∧
    totalHours [] = 0 ∧
    averagePerDay [] = 0 := by
  have hd : dailyHours [entryD1, entryD2, entryD3] = [("d1", 5), ("d2", 1)] := by
    norm_num [dailyHours, groupHours, addHours, dateKey, entryD1, entryD2, entryD3]
    decide
  have ht : totalHours [entryD1, entryD2, entryD3] = 6 := by
    norm_num [totalHours, entryD1, entryD2, entryD3]
  refine ⟨rfl, rfl, groupHours_keys_nodup dateKey entries, ht, hd, ?_, by norm_num [totalHours], ?_⟩
  · rw [averagePerDay, hd, ht]
    norm_num
  · norm_num [averagePerDay, totalHours, dailyHours, groupHours]

/-! ## Stable-sort lemmas -/

/-- Membership in an insertion step. -/
theorem mem_insertDesc (x z : String × Rat) (l : List (String × Rat)) :
    z ∈ insertDesc x l ↔ z = x ∨ z ∈ l := by
  induction l with
  | nil => simp [insertDesc]
  | cons y ys ih =>
    by_cases h : y.2 ≤ x.2
    · simp [insertDesc, h]
    · simp only [insertDesc, h, if_false, List.mem_cons, ih]
      tauto

/-- Inserting into a descending list keeps it descending. -/
theorem insertDesc_pairwise (x : String × Rat) (l : List (String × Rat))
    (hl : l.Pairwise (fun a b => b.2 ≤ a.2)) :
    (insertDesc x l).Pairwise (fun a b => b.2 ≤ a.2) := by
  induction l with
  | nil => simp [insertDesc]
  | cons y ys ih =>
    rcases List.pairwise_cons.mp hl with ⟨hy, hys⟩
    by_cases h : y.2 ≤ x.2
    · simp only [insertDesc, h, if_true]
      refine List.pairwise_cons.mpr ⟨?_, hl⟩
      intro z hz
      rcases List.mem_cons.mp hz with h1 | h1
      · rw [h1]; exact h
      · exact le_trans (hy z h1) h
    · simp only [insertDesc, h, if_false]
      refine List.pairwise_cons.mpr ⟨?_, ih hys⟩
      intro z hz
      rcases (mem_insertDesc x z ys).mp hz with h1 | h1
      · rw [h1]; exact le_of_lt (not_le.mp h)
      · exact hy z h1

/-- The stable sort produces a descending list. -/
theorem sortByHoursDesc_pairwise (l : List (String × Rat)) :
    (sortByHoursDesc l).Pairwise (fun a b => b.2 ≤ a.2) := by
  induction l with
  | nil => simp [sortByHoursDesc]
  | cons x xs ih => exact insertDesc_pairwise x _ ih

/-- An inserted pair of value v lands in front of every resident pair
of value v, so the v-filter gains x at the front. -/
theorem filter_insertDesc_eq (v : Rat) (x : String × Rat) (l : List (String × Rat))
    (hx : x.2 = v) :
    (insertDesc x l).filter (fun p => decide (p.2 = v)) =
      x :: l.filter (fun p => decide (p.2 = v)) := by
  induction l with
  | nil => simp [insertDesc, hx]
  | cons y ys ih =>
    by_cases h : y.2 ≤ x.2
    · simp only [insertDesc, if_pos h]
      simp [List.filter_cons, hx]
    · have hy : ¬ y.2 = v := by
        rw [← hx]
        intro hc
        exact h (le_of_eq hc)
      simp [insertDesc, h, List.filter_cons, hy, ih]

/-- Insertion of a pair of another value leaves the v-filter unchanged. -/
theorem filter_insertDesc_ne (v : Rat) (x : String × Rat) (l : List (String × Rat))
    (hx : ¬ x.2 = v) :
    (insertDesc x l).filter (fun p => decide (p.2 = v)) =
      l.filter (fun p => decide (p.2 = v)) := by
  induction l with
  | nil => simp [insertDesc, hx]
  | cons y ys ih =>
    by_cases h : y.2 ≤ x.2
    · simp [insertDesc, h, hx]
    · simp [insertDesc, h, List.filter_cons, ih]

/-- Stability: pairs of equal summed hours keep their input order. -/
theorem filter_sortByHoursDesc (v : Rat) (l : List (String × Rat)) :
    (sortByHoursDesc l).filter (fun p => decide (p.2 = v)) =
      l.filter (fun p => decide (p.2 = v)) := by
  induction l with
  | nil => rfl
  | cons x xs ih =>
    by_cases hx : x.2 = v
    · rw [sortByHoursDesc, filter_insertDesc_eq v x _ hx, ih, List.filter_cons]
      simp [hx]
    · rw [sortByHoursDesc, filter_insertDesc_ne v x _ hx, ih, List.filter_cons]
      simp [hx]

/-- The sort is a rearrangement: same members. -/
theorem mem_sortByHoursDesc (z : String × Rat) (l : List (String × Rat)) :
    z ∈ sortByHoursDesc l ↔ z ∈ l := by
  induction l with
  | nil => simp [sortByHoursDesc]
  | cons x xs ih =>
    rw [sortByHoursDesc, mem_insertDesc]
    simp [ih]

/-- C8: for every sequence of time entries, the hours_by_project
mapping returned by get_time_summary_by_period lists its pairs sorted
by summed hours in descending order, and any two projects with equal
summed hours keep the order in which their first entries were
encountered (stable sort: filtering by any fixed value commutes with
the sort). -/
theorem claim8_sorted_projects (entries : List TimeEntry) :
    (hoursByProject entries).Pairwise (fun a b => b.2 ≤ a.2) ∧
    (∀ v : Rat, (hoursByProject entries).filter (fun p => decide (p.2 = v)) =
      (groupHours projectKey entries).filter (fun p => decide (p.2 = v))) ∧
    (∀ z, z ∈ hoursByProject entries ↔ z ∈ groupHours projectKey entries) ∧
    (∀ (t : Transport) (fuel : Nat) (today : Date) (period : String) (sdate : Option String)
      (s e_ : Date) (reqs : List Request),
      summaryWindow period sdate today = .window s e_ →
      TickAPI.get_all_time_entries t fuel none (some s.fmt) (some e_.fmt) = (.ok entries, reqs) →
      (get_time_summary_by_period t fuel today period sdate).1.lookup "hours_by_project" =
        some (.groups (hoursByProject entries))) := by
  refine ⟨sortByHoursDesc_pairwise _, fun v => filter_sortByHoursDesc v _,
    fun z => mem_sortByHoursDesc z _, ?_⟩
  intro t fuel today period sdate s e_ reqs hw hget
  unfold get_time_summary_by_period
  rw [hw]
  dsimp only
  rw [hget]
  rfl

/-- Concrete instance of C8: the demo summary response carries the
sorted project grouping of the fetched entries. -/
theorem claim8_sorted_projects_witness :
    (get_time_summary_by_period demoT 2 ⟨2024, 3, 1⟩ "day" none).1.lookup "hours_by_project" =
      some (.groups (hoursByProject [entryD1, entryD2, entryD3])) := by
  exact (claim8_sorted_projects [entryD1, entryD2, entryD3]).2.2.2 demoT 2 ⟨2024, 3, 1⟩ "day"
    none ⟨2024, 3, 1⟩ ⟨2024, 3, 1⟩
    (TickAPI.get_all_time_entries demoT 2 none (some (Date.fmt ⟨2024, 3, 1⟩))
      (some (Date.fmt ⟨2024, 3, 1⟩))).2
    (by rfl) (by rfl)

/-! ## Period-window lemmas -/

/-- Subtracting one day from the first of a month lands on the last
day of the previous month, rolling January back to December. -/
theorem windowFor_month (a : Date) (ha : a.Valid) :
    windowFor "month" a =
      .window ⟨a.year, a.month, 1⟩ ⟨a.year, a.month, daysInMonth a.year a.month⟩ := by
  obtain ⟨hy, hm1, hm2, -, -⟩ := ha
  unfold windowFor
  rw [if_neg (by decide), if_neg (by decide)]
  by_cases h12 : a.month = 12
  · rw [if_pos h12, h12]
    have hp : subDays ⟨a.year + 1, 1, 1⟩ 1 = ⟨a.year, 12, 31⟩ := by
      show prevDay ⟨a.year + 1, 1, 1⟩ = ⟨a.year, 12, 31⟩
      simp [prevDay]
    dsimp only
    rw [hp]
    norm_num [daysInMonth]
  · rw [if_neg h12]
    have hlt : 1 < a.month + 1 := by omega
    have hp : subDays ⟨a.year, a.month + 1, 1⟩ 1 = ⟨a.year, a.month, daysInMonth a.year a.month⟩ := by
      show prevDay ⟨a.year, a.month + 1, 1⟩ = ⟨a.year, a.month, daysInMonth a.year a.month⟩
      simp [prevDay, hlt]
    dsimp only
    rw [hp]

/-- C2: for every valid anchor date, get_time_summary_by_period
computes the period window as: day gives start = end = anchor; week
gives start = anchor minus its zero-based Monday-start weekday index
and end = start + 6 days (anchor 2024-03-01 yields 2024-02-26 through
2024-03-03); month gives start = anchor with day 1 and end = first day
of the next month minus one day, with December rolling over
(2024-12-15 yields 2024-12-01 through 2024-12-31); any other period
keyword yields an error value before any network call. -/
theorem claim2_period_window (a : Date) (ha : a.Valid) :
    windowFor "day" a = .window a a ∧
    windowFor "week" a = .window (subDays a (weekday a)) (addDays (subDays a (weekday a)) 6) ∧
    windowFor "month" a =
      .window ⟨a.year, a.month, 1⟩ ⟨a.year, a.month, daysInMonth a.year a.month⟩ ∧
    summaryWindow "week" (some "2024-03-01") a = .window ⟨2024, 2, 26⟩ ⟨2024, 3, 3⟩ ∧
    summaryWindow "month" (some "2024-12-15") a = .window ⟨2024, 12, 1⟩ ⟨2024, 12, 31⟩ ∧
    summaryWindow "day" (some "2024-01-01") a = .window ⟨2024, 1, 1⟩ ⟨2024, 1, 1⟩ ∧
    (∀ (p : String), ¬ p = "day" → ¬ p = "week" → ¬ p = "month" →
      ∀ (t : Transport) (fuel : Nat) (sdate : Option String),
        get_time_summary_by_period t fuel a p sdate =
          ([("error", .str "Period must be 'day', 'week', or 'month'")], [])) := by
  refine ⟨rfl, rfl, windowFor_month a ha, by rfl, by rfl, by rfl, ?_⟩
  intro p h1 h2 h3 t fuel sdate
  simp [get_time_summary_by_period, summaryWindow, h1, h2, h3]

/-- Concrete instance of C2 at the valid anchor 2024-03-01: March is
windowed to its first and last day. -/
theorem claim2_period_window_witness :
    Date.Valid ⟨2024, 3, 1⟩ ∧
    windowFor "month" ⟨2024, 3, 1⟩ = .window ⟨2024, 3, 1⟩ ⟨2024, 3, 31⟩ := by
  refine ⟨by decide, ?_⟩
  have h := (claim2_period_window ⟨2024, 3, 1⟩ (by decide)).2.2.1
  simpa [daysInMonth] using h

/-! ## The get_time_entries tool on the all-projects path -/

/-- When the project argument is falsy and the dates validate, the
tool skips name resolution entirely and paginates the global
time-entries endpoint. -/
theorem get_time_entries_allprojects (t : Transport) (fuel : Nat)
    (project sd ed : Option String)
    (hproj : optStr project = none) (hb : badDates sd ed = false)
    (pages : Nat → List TimeEntry) (k : Nat)
    (hok : ∀ n, 1 ≤ n → n ≤ k → t.fetchEntries (entriesRequest none sd ed n) = .ok (pages n))
    (hne : ∀ n, 1 ≤ n → n ≤ k → pages n ≠ [])
    (hend : t.fetchEntries (entriesRequest none sd ed (k + 1)) = .ok [])
    (hfuel : k + 1 ≤ fuel) :
    get_time_entries t fuel project sd ed =
      (gteResponse project none sd ed ((List.range' 1 k).map pages).flatten,
       (List.range' 1 (k + 1)).map (entriesRequest none sd ed)) := by
  have hget := get_all_time_entries_spec t none sd ed pages k hok hne hend fuel hfuel
  unfold get_time_entries
  rw [hb]
  simp only [Bool.false_eq_true, if_false]
  rw [hproj]
  unfold finishEntries
  rw [hget]
  rfl

/-- C10: in get_time_entries, a project argument that is absent or an
empty string is treated as no project filter: name resolution is
skipped (every issued request targets the global time-entries
endpoint), entries for all projects are fetched, and the response
reports project as All projects with project_id null. -/
theorem claim10_no_project_filter (t : Transport) (fuel : Nat)
    (project sd ed : Option String)
    (hproj : project = none ∨ project = some "")
    (hb : badDates sd ed = false)
    (pages : Nat → List TimeEntry) (k : Nat)
    (hok : ∀ n, 1 ≤ n → n ≤ k → t.fetchEntries (entriesRequest none sd ed n) = .ok (pages n))
    (hne : ∀ n, 1 ≤ n → n ≤ k → pages n ≠ [])
    (hend : t.fetchEntries (entriesRequest none sd ed (k + 1)) = .ok [])
    (hfuel : k + 1 ≤ fuel) :
    get_time_entries t fuel project sd ed =
      (gteResponse project none sd ed ((List.range' 1 k).map pages).flatten,
       (List.range' 1 (k + 1)).map (entriesRequest none sd ed)) ∧
    (get_time_entries t fuel project sd ed).1.lookup "project" = some (.str "All projects") ∧
    (get_time_entries t fuel project sd ed).1.lookup "project_id" = some .null ∧
    (∀ r ∈ (get_time_entries t fuel project sd ed).2, r.endpoint = .timeEntriesAll) := by
  have hos : optStr project = none := by
    rcases hproj with h | h <;> rw [h] <;> rfl
  have hmain := get_time_entries_allprojects t fuel project sd ed hos hb pages k hok hne hend hfuel
  refine ⟨hmain, ?_, ?_, ?_⟩
  · rw [hmain]
    show (gteResponse project none sd ed _).lookup "project" = _
    unfold gteResponse
    rw [hos]
    rfl
  · rw [hmain]
    rfl
  · rw [hmain]
    intro r hr
    rcases List.mem_map.mp hr with ⟨n, -, rfl⟩
    rfl

/-- Concrete instance of C10: with an empty project string the demo
fetch reports All projects, a null project id, and only global
endpoint requests. -/
theorem claim10_no_project_filter_witness :
    get_time_entries demoT 2 (some "") none none =
      (gteResponse (some "") none none none [entryD1, entryD2, entryD3],
       [entriesRequest none none none 1, entriesRequest none none none 2]) ∧
    (get_time_entries demoT 2 (some "") none none).1.lookup "project" =
      some (.str "All projects") := by
  have h := claim10_no_project_filter demoT 2 (some "") none none (Or.inr rfl) (by rfl)
    pagesED 1
    (by intro n h1 h2; have hn : n = 1 := (by omega); subst hn; rfl)
    (by intro n h1 h2; have hn : n = 1 := (by omega); subst hn; simp [pagesED])
    (by rfl) (by omega)
  refine ⟨?_, h.2.1⟩
  have h1 := h.1
  simpa [pagesED] using h1

/-! ## Sheets-export lemmas -/

/-- A single-page transport (page 1 gives es, page 2 is empty) makes
the project-less fetch return exactly es. -/
theorem get_time_entries_onepage (t : Transport) (fuel : Nat) (sd ed : Option String)
    (hb : badDates sd ed = false) (es : List TimeEntry)
    (h1 : t.fetchEntries (entriesRequest none sd ed 1) = .ok es)
    (h2 : t.fetchEntries (entriesRequest none sd ed 2) = .ok [])
    (hfuel : 2 ≤ fuel) :
    (get_time_entries t fuel none sd ed).1 = gteResponse none none sd ed es := by
  by_cases hes : es = []
  · subst hes
    have h := get_time_entries_allprojects t fuel none sd ed rfl hb (fun _ => []) 0
      (by intro n hn1 hn2; omega) (by intro n hn1 hn2; omega) (by simpa using h1)
      (by omega)
    rw [h]
    rfl
  · have h := get_time_entries_allprojects t fuel none sd ed rfl hb (fun _ => es) 1
      (by intro n hn1 hn2; have hn : n = 1 := (by omega); subst hn; exact h1)
      (by intro n hn1 hn2; exact hes) h2 (by omega)
    rw [h]
    simp

/-- C9: for every list of fetched entries, get_time_entries_for_sheets
with formatting enabled returns sheet_data consisting of the header row
followed by exactly one row per entry in entry order, total_rows equal
to one plus the number of entries, and every missing nested
Project/Task/User/Client name field rendered as the empty string. -/
theorem claim9_sheets (t : Transport) (fuel : Nat) (sd ed : Option String)
    (hb : badDates sd ed = false) (es : List TimeEntry)
    (h1 : t.fetchEntries (entriesRequest none sd ed 1) = .ok es)
    (h2 : t.fetchEntries (entriesRequest none sd ed 2) = .ok [])
    (hfuel : 2 ≤ fuel) :
    (get_time_entries_for_sheets t fuel none sd ed true).1.lookup "sheet_data" =
      some (.cells ((sheetHeaders.map JVal.str) :: es.map sheetsRow)) ∧
    (get_time_entries_for_sheets t fuel none sd ed true).1.lookup "total_rows" =
      some (.num ((es.length + 1 : Nat) : Rat)) ∧
    (∀ e : TimeEntry, e.project = none → e.task = none → e.user = none →
      sheetsRow e = [.str (e.date.getD ""), .str "", .str "", .str "",
                     .num (e.hours.getD 0), .str (e.notes.getD ""), .str ""]) := by
  have hmain := get_time_entries_onepage t fuel sd ed hb es h1 h2 hfuel
  have hpair : get_time_entries t fuel none sd ed =
      (gteResponse none none sd ed es, (get_time_entries t fuel none sd ed).2) := by
    rw [← hmain]
  have hsheets : (get_time_entries_for_sheets t fuel none sd ed true).1 =
      [("success", .b true),
       ("sheet_data", .cells ((sheetHeaders.map JVal.str) :: es.map sheetsRow)),
       ("total_rows", .num (((sheetHeaders.map JVal.str) :: es.map sheetsRow).length : Nat)),
       ("headers", .strs sheetHeaders),
       ("summary", .obj
         [("total_entries", .num (es.length : Nat)),
          ("total_hours", .num (totalHours es)),
          ("date_range", .str (((optStr sd).getD "beginning") ++ " to " ++ ((optStr ed).getD "now"))),
          ("project", .str "All projects")])] := by
    unfold get_time_entries_for_sheets
    rw [hpair]
    rfl
  refine ⟨?_, ?_, ?_⟩
  · rw [hsheets]
    rfl
  · rw [hsheets]
    simp only [List.length_cons, List.length_map, Nat.cast_add, Nat.cast_one]
    rfl
  · intro e hp ht hu
    unfold sheetsRow
    rw [hp, ht, hu]
    rfl

/-- Concrete instance of C9: three demo entries give the header plus
three rows, four rows in total. -/
theorem claim9_sheets_witness :
    (get_time_entries_for_sheets demoT 2 none none none true).1.lookup "sheet_data" =
      some (.cells ((sheetHeaders.map JVal.str) ::
        [entryD1, entryD2, entryD3].map sheetsRow)) ∧
    (get_time_entries_for_sheets demoT 2 none none none true).1.lookup "total_rows" =
      some (.num ((4 : Nat) : Rat)) := by
  have h := claim9_sheets demoT 2 none none (by rfl) [entryD1, entryD2, entryD3]
    (by rfl) (by rfl) (by omega)
  exact ⟨h.1, h.2.1⟩

/-! ## Update-validation claim -/

/-- C6: update_time_entry called with both hours and notes absent
returns an error value without issuing any network request; called
with only notes supplied it succeeds, and the PUT request body then
contains exactly the notes field and no hours field, leaving the
stored hours untouched. -/
theorem claim6_update_validation (t : Transport) (eid : Nat) :
    update_time_entry t eid none none =
      ([("error", .str "Must provide either hours or notes to update")], []) ∧
    (∀ s : String, (updateRequest eid (updateBody none (some s))).body = [("notes", .str s)]) ∧
    (∀ (s : String) (v : JVal), t.send (updateRequest eid (updateBody none (some s))) = .ok v →
      update_time_entry t eid none (some s) =
        ([("success", .b true),
          ("message", .str ("Updated time entry " ++ toString eid)),
          ("entry", v)], [updateRequest eid (updateBody none (some s))])) := by
  refine ⟨rfl, fun s => rfl, ?_⟩
  intro s v hsend
  unfold update_time_entry
  rw [hsend]
  rfl

/-- Concrete instance of C6: the demo transport accepts the PUT and
the notes-only update succeeds with a one-element body. -/
theorem claim6_update_validation_witness :
    update_time_entry demoT 9 none none =
      ([("error", .str "Must provide either hours or notes to update")], []) ∧
    (updateRequest 9 (updateBody none (some "hi"))).body = [("notes", .str "hi")] ∧
    update_time_entry demoT 9 none (some "hi") =
      ([("success", .b true), ("message", .str ("Updated time entry " ++ toString 9)),
        ("entry", .null)], [updateRequest 9 (updateBody none (some "hi"))]) := by
  have h := claim6_update_validation demoT 9
  exact ⟨h.1, h.2.1 "hi", h.2.2 "hi" .null (by rfl)⟩

/-! ## Error-boundary claim

Shape lemmas: for every transport behavior whatsoever, each of the
ten tool operations returns a dictionary carrying either an error
message or its success payload: no branch escapes the operation. -/

/-- Every get_time_entries result carries an error or total_hours. -/
theorem lookup_shape_gte (t : Transport) (fuel : Nat) (project sd ed : Option String) :
    ((get_time_entries t fuel project sd ed).1.lookup "error").isSome = true ∨
    ((get_time_entries t fuel project sd ed).1.lookup "total_hours").isSome = true := by
  unfold get_time_entries finishEntries
  repeat' split
  all_goals first
    | (left; rfl)
    | (right; rfl)

/-- Every create_time_entry result carries an error or success. -/
theorem lookup_shape_create (t : Transport) (fuel : Nat) (q tq : String) (hours : Rat)
    (date notes : String) :
    ((create_time_entry t fuel q tq hours date notes).1.lookup "error").isSome = true ∨
    (create_time_entry t fuel q tq hours date notes).1.lookup "success" = some (.b true) := by
  unfold create_time_entry
  repeat' split
  all_goals first
    | (left; rfl)
    | (right; rfl)

/-- Every update_time_entry result carries an error or success. -/
theorem lookup_shape_update (t : Transport) (eid : Nat) (hours : Option Rat)
    (notes : Option String) :
    ((update_time_entry t eid hours notes).1.lookup "error").isSome = true ∨
    (update_time_entry t eid hours notes).1.lookup "success" = some (.b true) := by
  unfold update_time_entry
  repeat' split
  all_goals first
    | (left; rfl)
    | (right; rfl)

/-- Every delete_time_entry result carries an error or success. -/
theorem lookup_shape_delete (t : Transport) (eid : Nat) :
    ((delete_time_entry t eid).1.lookup "error").isSome = true ∨
    (delete_time_entry t eid).1.lookup "success" = some (.b true) := by
  unfold delete_time_entry
  split
  · left; rfl
  · right; rfl

/-- Every list_projects result carries an error or total_projects. -/
theorem lookup_shape_list_projects (t : Transport) (fuel : Nat) :
    ((list_projects t fuel).1.lookup "error").isSome = true ∨
    ((list_projects t fuel).1.lookup "total_projects").isSome = true := by
  unfold list_projects
  split
  · left; rfl
  · right; rfl

/-- Every get_project_tasks result carries an error or total_tasks. -/
theorem lookup_shape_tasks (t : Transport) (fuel : Nat) (q : String) :
    ((get_project_tasks t fuel q).1.lookup "error").isSome = true ∨
    ((get_project_tasks t fuel q).1.lookup "total_tasks").isSome = true := by
  unfold get_project_tasks
  repeat' split
  all_goals first
    | (left; rfl)
    | (right; rfl)

/-- Every get_time_summary_by_period result carries an error or
total_hours. -/
theorem lookup_shape_summary (t : Transport) (fuel : Nat) (today : Date) (period : String)
    (sdate : Option String) :
    ((get_time_summary_by_period t fuel today period sdate).1.lookup "error").isSome = true ∨
    ((get_time_summary_by_period t fuel today period sdate).1.lookup "total_hours").isSome
      = true := by
  unfold get_time_summary_by_period
  repeat' split
  all_goals first
    | (left; rfl)
    | (right; rfl)

/-- Every list_clients result carries an error or total_clients. -/
theorem lookup_shape_clients (t : Transport) (fuel : Nat) :
    ((list_clients t fuel).1.lookup "error").isSome = true ∨
    ((list_clients t fuel).1.lookup "total_clients").isSome = true := by
  unfold list_clients
  repeat' split
  all_goals first
    | (left; rfl)
    | (right; rfl)

/-- Every get_team_overview result carries an error or total_users. -/
theorem lookup_shape_team (t : Transport) (fuel : Nat) (today : Date) :
    ((get_team_overview t fuel today).1.lookup "error").isSome = true ∨
    ((get_team_overview t fuel today).1.lookup "total_users").isSome = true := by
  unfold get_team_overview
  repeat' split
  all_goals first
    | (left; rfl)
    | (right; rfl)

/-- Every get_time_entries_for_sheets result carries an error, a
success marker, or the passed-through total_hours (when formatting is
turned off the delegated dictionary is returned as is). -/
theorem lookup_shape_sheets (t : Transport) (fuel : Nat) (project sd ed : Option String)
    (fmt : Bool) :
    ((get_time_entries_for_sheets t fuel project sd ed fmt).1.lookup "error").isSome = true ∨
    (get_time_entries_for_sheets t fuel project sd ed fmt).1.lookup "success"
      = some (.b true) ∨
    ((get_time_entries_for_sheets t fuel project sd ed fmt).1.lookup "total_hours").isSome
      = true := by
  unfold get_time_entries_for_sheets
  rcases hret : get_time_entries t fuel project sd ed with ⟨result, reqs⟩
  have hg := lookup_shape_gte t fuel project sd ed
  rw [hret] at hg
  dsimp only at hg ⊢
  by_cases herr : (result.lookup "error").isSome = true
  · rw [if_pos herr]
    exact Or.inl herr
  · rw [if_neg herr]
    rcases hg with hg | hg
    · exact absurd hg herr
    · cases fmt with
      | false =>
        right; right
        exact hg
      | true =>
        right; left
        rfl

/-- C7: every top-level tool operation, for every transport behavior,
returns a structured dictionary value (an error message or its success
payload; exceptions are modelled as Except values stopped at the
operation boundary), and on a transport that fails, each operation
returns exactly the value error = Failed to verb cause after the
single failing request, with no retry. -/
theorem claim7_error_boundary :
    (∀ (t : Transport) (fuel : Nat),
      (∀ (project sd ed : Option String),
        ((get_time_entries t fuel project sd ed).1.lookup "error").isSome = true ∨
        ((get_time_entries t fuel project sd ed).1.lookup "total_hours").isSome = true) ∧
      (∀ (q tq : String) (hours : Rat) (date notes : String),
        ((create_time_entry t fuel q tq hours date notes).1.lookup "error").isSome = true ∨
        (create_time_entry t fuel q tq hours date notes).1.lookup "success"
          = some (.b true)) ∧
      (∀ (eid : Nat) (hours : Option Rat) (notes : Option String),
        ((update_time_entry t eid hours notes).1.lookup "error").isSome = true ∨
        (update_time_entry t eid hours notes).1.lookup "success" = some (.b true)) ∧
      (∀ eid : Nat,
        ((delete_time_entry t eid).1.lookup "error").isSome = true ∨
        (delete_time_entry t eid).1.lookup "success" = some (.b true)) ∧
      (((list_projects t fuel).1.lookup "error").isSome = true ∨
        ((list_projects t fuel).1.lookup "total_projects").isSome = true) ∧
      (∀ q : String,
        ((get_project_tasks t fuel q).1.lookup "error").isSome = true ∨
        ((get_project_tasks t fuel q).1.lookup "total_tasks").isSome = true) ∧
      (∀ (today : Date) (period : String) (sdate : Option String),
        ((get_time_summary_by_period t fuel today period sdate).1.lookup "error").isSome
          = true ∨
        ((get_time_summary_by_period t fuel today period sdate).1.lookup
          "total_hours").isSome = true) ∧
      (((list_clients t fuel).1.lookup "error").isSome = true ∨
        ((list_clients t fuel).1.lookup "total_clients").isSome = true) ∧
      (∀ today : Date,
        ((get_team_overview t fuel today).1.lookup "error").isSome = true ∨
        ((get_team_overview t fuel today).1.lookup "total_users").isSome = true) ∧
      (∀ (project sd ed : Option String) (fmt : Bool),
        ((get_time_entries_for_sheets t fuel project sd ed fmt).1.lookup "error").isSome
          = true ∨
        (get_time_entries_for_sheets t fuel project sd ed fmt).1.lookup "success"
          = some (.b true) ∨
        ((get_time_entries_for_sheets t fuel project sd ed fmt).1.lookup
          "total_hours").isSome = true)) ∧
    (∀ (t : Transport) (fuel : Nat) (c : String),
      (∀ r, t.fetchProjects r = .error c) →
      (∀ r, t.fetchEntries r = .error c) →
      (∀ r, t.fetchTasks r = .error c) →
      (∀ r, t.fetchClients r = .error c) →
      (∀ r, t.fetchUsers r = .error c) →
      (∀ r, t.send r = .error c) →
      1 ≤ fuel →
      (∀ sd ed, badDates sd ed = false →
        get_time_entries t fuel none sd ed =
          ([("error", .str ("Failed to fetch time entries: " ++ c))],
           [entriesRequest none sd ed 1])) ∧
      (∀ q sd ed, badDates sd ed = false → ¬ q = "" →
        get_time_entries t fuel (some q) sd ed =
          ([("error", .str ("Failed to fetch time entries: " ++ c))],
           [projectsRequest 1])) ∧
      (∀ (q tq : String) (hours : Rat) (date notes : String),
        (parseDate date).isNone = false →
        create_time_entry t fuel q tq hours date notes =
          ([("error", .str ("Failed to create time entry: " ++ c))], [projectsRequest 1])) ∧
      (∀ (eid : Nat) (hours : Option Rat) (notes : Option String),
        (hours.isNone && notes.isNone) = false →
        update_time_entry t eid hours notes =
          ([("error", .str ("Failed to update time entry: " ++ c))],
           [updateRequest eid (updateBody hours notes)])) ∧
      (∀ eid : Nat, delete_time_entry t eid =
        ([("error", .str ("Failed to delete time entry: " ++ c))], [deleteRequest eid])) ∧
      (list_projects t fuel =
        ([("error", .str ("Failed to fetch projects: " ++ c))], [projectsRequest 1])) ∧
      (∀ q : String, get_project_tasks t fuel q =
        ([("error", .str ("Failed to fetch project tasks: " ++ c))], [projectsRequest 1])) ∧
      (∀ (today : Date) (period : String) (sdate : Option String) (s e_ : Date),
        summaryWindow period sdate today = .window s e_ →
        get_time_summary_by_period t fuel today period sdate =
          ([("error", .str ("Failed to get time summary: " ++ c))],
           [entriesRequest none (some s.fmt) (some e_.fmt) 1])) ∧
      (list_clients t fuel =
        ([("error", .str ("Failed to fetch clients: " ++ c))], [clientsRequest])) ∧
      (∀ today : Date, get_team_overview t fuel today =
        ([("error", .str ("Failed to fetch team overview: " ++ c))], [usersRequest])) ∧
      (∀ (sd ed : Option String) (fmt : Bool), badDates sd ed = false →
        get_time_entries_for_sheets t fuel none sd ed fmt =
          ([("error", .str ("Failed to fetch time entries: " ++ c))],
           [entriesRequest none sd ed 1]))) := by
  constructor
  · intro t fuel
    exact ⟨lookup_shape_gte t fuel, lookup_shape_create t fuel,
      lookup_shape_update t, lookup_shape_delete t, lookup_shape_list_projects t fuel,
      lookup_shape_tasks t fuel, lookup_shape_summary t fuel,
      lookup_shape_clients t fuel, lookup_shape_team t fuel, lookup_shape_sheets t fuel⟩
  · intro t fuel c hP hE hT hC hU hS hfuel
    have hfailP : TickAPI.get_all_projects t fuel = (.error c, [projectsRequest 1]) :=
      fetchAllLoop_err _ _ c 1 fuel (hP _) hfuel
    have hfailE : ∀ sd ed, TickAPI.get_all_time_entries t fuel none sd ed =
        (.error c, [entriesRequest none sd ed 1]) :=
      fun sd ed => fetchAllLoop_err _ _ c 1 fuel (hE _) hfuel
    have hgteN : ∀ sd ed, badDates sd ed = false →
        get_time_entries t fuel none sd ed =
          ([("error", .str ("Failed to fetch time entries: " ++ c))],
           [entriesRequest none sd ed 1]) := by
      intro sd ed hb
      unfold get_time_entries
      rw [hb]
      simp only [Bool.false_eq_true, if_false]
      show finishEntries t fuel none none sd ed [] = _
      unfold finishEntries
      rw [hfailE sd ed]
      rfl
    refine ⟨hgteN, ?_, ?_, ?_, ?_, ?_, ?_, ?_, ?_, ?_, ?_⟩
    · intro q sd ed hb hq
      unfold get_time_entries
      rw [hb]
      simp only [Bool.false_eq_true, if_false]
      have hos : optStr (some q) = some q := by simp [optStr, hq]
      rw [hos]
      unfold TickAPI.find_project_id
      rw [hfailP]
      rfl
    · intro q tq hours date notes hdate
      unfold create_time_entry
      rw [hdate]
      simp only [Bool.false_eq_true, if_false]
      unfold TickAPI.find_project_id
      rw [hfailP]
      rfl
    · intro eid hours notes hsome
      unfold update_time_entry
      rw [hsome]
      simp only [Bool.false_eq_true, if_false]
      rw [hS (updateRequest eid (updateBody hours notes))]
    · intro eid
      unfold delete_time_entry
      rw [hS (deleteRequest eid)]
    · unfold list_projects
      rw [hfailP]
    · intro q
      unfold get_project_tasks
      unfold TickAPI.find_project_id
      rw [hfailP]
    · intro today period sdate s e_ hw
      unfold get_time_summary_by_period
      rw [hw]
      dsimp only
      rw [hfailE (some s.fmt) (some e_.fmt)]
    · unfold list_clients
      rw [hC clientsRequest]
    · intro today
      unfold get_team_overview
      rw [hU usersRequest]
    · intro sd ed fmt hb
      unfold get_time_entries_for_sheets
      rw [hgteN sd ed hb]
      rfl

/-- Concrete instance of C7: on the always-failing transport all ten
operations surface the cause in a structured error value after exactly
one request. -/
theorem claim7_error_boundary_witness :
    get_time_entries failT 1 none none none =
      ([("error", .str "Failed to fetch time entries: boom")],
       [entriesRequest none none none 1]) ∧
    get_time_entries failT 1 (some "acme") none none =
      ([("error", .str "Failed to fetch time entries: boom")], [projectsRequest 1]) ∧
    create_time_entry failT 1 "acme" "design" 1 "2024-01-02" "" =
      ([("error", .str "Failed to create time entry: boom")], [projectsRequest 1]) ∧
    update_time_entry failT 9 none (some "hi") =
      ([("error", .str "Failed to update time entry: boom")],
       [updateRequest 9 (updateBody none (some "hi"))]) ∧
    delete_time_entry failT 9 =
      ([("error", .str "Failed to delete time entry: boom")], [deleteRequest 9]) ∧
    list_projects failT 1 =
      ([("error", .str "Failed to fetch projects: boom")], [projectsRequest 1]) ∧
    get_project_tasks failT 1 "acme" =
      ([("error", .str "Failed to fetch project tasks: boom")], [projectsRequest 1]) ∧
    get_time_summary_by_period failT 1 ⟨2024, 3, 1⟩ "day" none =
      ([("error", .str "Failed to get time summary: boom")],
       [entriesRequest none (some (Date.fmt ⟨2024, 3, 1⟩)) (some (Date.fmt ⟨2024, 3, 1⟩)) 1]) ∧
    list_clients failT 1 =
      ([("error", .str "Failed to fetch clients: boom")], [clientsRequest]) ∧
    get_team_overview failT 1 ⟨2024, 3, 1⟩ =
      ([("error", .str "Failed to fetch team overview: boom")], [usersRequest]) ∧
    get_time_entries_for_sheets failT 1 none none none true =
      ([("error", .str "Failed to fetch time entries: boom")],
       [entriesRequest none none none 1]) := by
  have h := claim7_error_boundary.2 failT 1 "boom"
    (fun r => rfl) (fun r => rfl) (fun r => rfl) (fun r => rfl) (fun r => rfl) (fun r => rfl)
    (by omega)
  exact ⟨h.1 none none (by rfl),
         h.2.1 "acme" none none (by rfl) (by decide),
         h.2.2.1 "acme" "design" 1 "2024-01-02" "" (by rfl),
         h.2.2.2.1 9 none (some "hi") (by rfl),
         h.2.2.2.2.1 9,
         h.2.2.2.2.2.1,
         h.2.2.2.2.2.2.1 "acme",
         h.2.2.2.2.2.2.2.1 ⟨2024, 3, 1⟩ "day" none ⟨2024, 3, 1⟩ ⟨2024, 3, 1⟩ (by rfl),
         h.2.2.2.2.2.2.2.2.1,
         h.2.2.2.2.2.2.2.2.2.1 ⟨2024, 3, 1⟩,
         h.2.2.2.2.2.2.2.2.2.2 none none true (by rfl)⟩

/-! ## Not-found suggestion claim -/

/-- C5 counterexample: on a project-name miss, create_time_entry and
get_project_tasks return only the error message, with no
available_projects key, contradicting the claim that every name-miss
carries the full candidate-name list. -/
theorem claim5_counterexample :
    (create_time_entry demoT 2 "zzz" "Design" 1 "2024-01-02" "").1 =
      [("error", .str "Project 'zzz' not found")] ∧
    (create_time_entry demoT 2 "zzz" "Design" 1 "2024-01-02" "").1.lookup
      "available_projects" = none ∧
    (get_project_tasks demoT 2 "zzz").1 =
      [("error", .str "Project 'zzz' not found")] ∧
    (get_project_tasks demoT 2 "zzz").1.lookup "available_projects" = none := by
  exact ⟨rfl, rfl, rfl, rfl⟩

/-- C5 amended: get_time_entries includes the full available_projects
list on a project miss, and create_time_entry includes the full
available_tasks list on a task miss; but on a project miss
create_time_entry and get_project_tasks return only the error message
with no candidate list. -/
theorem claim5_amended (t : Transport) (fuel : Nat) (q tq : String) :
    (∀ (ps : List Project) (reqsP : List Request) (sd ed : Option String),
      TickAPI.get_all_projects t fuel = (.ok ps, reqsP) →
      badDates sd ed = false → ¬ q = "" →
      TickAPI.findProj ps q = none →
      get_time_entries t fuel (some q) sd ed =
        ([("error", .str ("Project '" ++ q ++ "' not found")),
          ("available_projects", .strs (ps.map Project.name))], reqsP ++ reqsP)) ∧
    (∀ (ps : List Project) (reqsP : List Request) (pid : Nat) (ts : List Task)
       (hours : Rat) (date notes : String),
      TickAPI.get_all_projects t fuel = (.ok ps, reqsP) →
      (parseDate date).isNone = false →
      TickAPI.findProj ps q = some (pid + 1) →
      t.fetchTasks (tasksRequest (pid + 1)) = .ok ts →
      (∀ tk ∈ ts, containsCI tk.name tq = false) →
      create_time_entry t fuel q tq hours date notes =
        ([("error", .str ("Task '" ++ tq ++ "' not found in project '" ++ q ++ "'")),
          ("available_tasks", .strs (ts.map Task.name))], reqsP ++ [tasksRequest (pid + 1)])) ∧
    (∀ (ps : List Project) (reqsP : List Request) (hours : Rat) (date notes : String),
      TickAPI.get_all_projects t fuel = (.ok ps, reqsP) →
      (parseDate date).isNone = false →
      TickAPI.findProj ps q = none →
      create_time_entry t fuel q tq hours date notes =
        ([("error", .str ("Project '" ++ q ++ "' not found"))], reqsP)) ∧
    (∀ (ps : List Project) (reqsP : List Request),
      TickAPI.get_all_projects t fuel = (.ok ps, reqsP) →
      TickAPI.findProj ps q = none →
      get_project_tasks t fuel q =
        ([("error", .str ("Project '" ++ q ++ "' not found"))], reqsP)) := by
  refine ⟨?_, ?_, ?_, ?_⟩
  · intro ps reqsP sd ed hget hb hq hmiss
    unfold get_time_entries
    rw [hb]
    simp only [Bool.false_eq_true, if_false]
    have hos : optStr (some q) = some q := by simp [optStr, hq]
    rw [hos]
    unfold TickAPI.find_project_id
    rw [hget]
    dsimp only
    rw [hmiss]
    dsimp only [optId]
  · intro ps reqsP pid ts hours date notes hget hdate hfind htasks hmiss
    unfold create_time_entry
    rw [hdate]
    simp only [Bool.false_eq_true, if_false]
    unfold TickAPI.find_project_id
    rw [hget]
    dsimp only
    rw [hfind]
    dsimp only [optId]
    rw [htasks]
    dsimp only
    have hnone : ts.find? (fun tk => containsCI tk.name tq) = none :=
      List.find?_eq_none.mpr (fun tk htk => by rw [hmiss tk htk]; simp)
    rw [hnone]
    rfl
  · intro ps reqsP hours date notes hget hdate hmiss
    unfold create_time_entry
    rw [hdate]
    simp only [Bool.false_eq_true, if_false]
    unfold TickAPI.find_project_id
    rw [hget]
    dsimp only
    rw [hmiss]
    rfl
  · intro ps reqsP hget hmiss
    unfold get_project_tasks
    unfold TickAPI.find_project_id
    rw [hget]
    dsimp only
    rw [hmiss]
    rfl

/-- Concrete instance of the amended C5: the demo transport yields the
full candidate lists exactly where the amended claim says they appear. -/
theorem claim5_amended_witness :
    get_time_entries demoT 2 (some "zzz") none none =
      ([("error", .str "Project 'zzz' not found"),
        ("available_projects", .strs ["Acme Corp", "Acme Labs"])],
       [projectsRequest 1, projectsRequest 2, projectsRequest 1, projectsRequest 2]) ∧
    create_time_entry demoT 2 "acme" "zzz" 1 "2024-01-02" "" =
      ([("error", .str "Task 'zzz' not found in project 'acme'"),
        ("available_tasks", .strs ["Design"])],
       [projectsRequest 1, projectsRequest 2, tasksRequest 7]) := by
  have h := claim5_amended demoT 2 "zzz" "whatever"
  have h2 := claim5_amended demoT 2 "acme" "zzz"
  constructor
  · have := h.1 [acmeCorp, acmeLabs] [projectsRequest 1, projectsRequest 2] none none
      (by rfl) (by rfl) (by decide) (by decide)
    simpa [acmeCorp, acmeLabs] using this
  · have := h2.2.1 [acmeCorp, acmeLabs] [projectsRequest 1, projectsRequest 2] 6 demoTasks
      1 "2024-01-02" "" (by rfl) (by rfl) (by decide) (by rfl) (by decide)
    simpa [demoTasks] using this

end Tick
